import Mathlib

/-!
Shallow embedding of the graphql-node repository: Mongoose models
(Product, User, Order), the GraphQL query/mutation resolvers and the
Order field resolvers, plus the (commented-out) PubSub notification step,
with theorems checking the claims of the specification against them.
-/

namespace GQL

/-- Product status enum from models/Product.js: ACTIVE or INACTIVE. -/
inductive PStatus where
  | ACTIVE
  | INACTIVE
deriving DecidableEq, Repr

/-- User role enum from models/User.js: ADMIN or CUSTOMER. -/
inductive Role where
  | ADMIN
  | CUSTOMER
deriving DecidableEq, Repr

/-- Order status enum from models/Order.js: PENDING, COMPLETED or CANCELLED. -/
inductive OStatus where
  | PENDING
  | COMPLETED
  | CANCELLED
deriving DecidableEq, Repr

/-- Product document, per the Mongoose schema in models/Product.js.
No schema field is marked required, so fields that can be absent in a
stored document are Option; name and price are kept plain since every
creation path supplies them (non-null in the GraphQL schema). -/
structure Product where
  id : String
  name : String
  price : Int
  category : Option String
  status : Option PStatus
deriving DecidableEq, Repr

/-- User document, per the Mongoose schema in models/User.js. -/
structure User where
  id : String
  username : String
  email : String
  role : Option Role
deriving DecidableEq, Repr

/-- Order document, per the Mongoose schema in models/Order.js:
an array of Product ObjectId references, one User reference, total, status. -/
structure Order where
  id : String
  products : List String
  user : String
  total : Int
  status : Option OStatus
deriving DecidableEq, Repr

/-- The three MongoDB collections the resolvers read and write.
Documents are kept in insertion (natural) order, which is the order an
unsorted Mongo `find` scans them in. -/
structure Store where
  products : List Product
  users : List User
  orders : List Order
deriving DecidableEq, Repr

namespace Query

/-- Resolver Query.product: Product.findById, the first document whose id
matches, or null when absent. -/
def product (s : Store) (id : String) : Option Product :=
  s.products.find? (fun p => p.id == id)

/-- Resolver Query.products: when onlyActive is truthy it runs a store-level
find on status ACTIVE, otherwise an unfiltered find; JS truthiness makes
undefined and false take the unfiltered branch. -/
def products (s : Store) (onlyActive : Option Bool) : List Product :=
  if onlyActive.getD false then
    s.products.filter (fun p => p.status == some PStatus.ACTIVE)
  else
    s.products

/-- Resolver Query.user: User.findById. -/
def user (s : Store) (id : String) : Option User :=
  s.users.find? (fun u => u.id == id)

/-- Resolver Query.users: User.find with no filter. -/
def users (s : Store) : List User :=
  s.users

/-- Resolver Query.order: Order.findById. -/
def order (s : Store) (id : String) : Option Order :=
  s.orders.find? (fun o => o.id == id)

/-- Resolver Query.orders: Order.find with no filter — the resolver function
takes no arguments and in particular ignores the userId argument that the
GraphQL schema declares for the orders query. -/
def orders (s : Store) (_userId : Option String) : List Order :=
  s.orders

end Query

namespace OrderField

/-- Field resolver Order.products: a Product.find whose filter matches ids
contained in the order.products reference array (a Mongo in-query). Such a
find scans the collection in natural order and returns each stored document
that matches once — it does not reorder or duplicate results to mirror the
reference array. -/
def products (s : Store) (o : Order) : List Product :=
  s.products.filter (fun p => o.products.contains p.id)

/-- Field resolver Order.user: User.findOne on the id stored in order.user —
null when the referenced user no longer exists. -/
def user (s : Store) (o : Order) : Option User :=
  s.users.find? (fun u => u.id == o.user)

end OrderField

/-! ### Mutation pipeline and the publish step -/

/-- Change events the mutation resolvers hand to publish, one payload shape
per (entity type, verb) topic. Update payloads are Option because
findByIdAndUpdate yields null for a missing id and the resolver publishes
whatever it returned. -/
inductive Event where
  | productAdded (p : Product)
  | productUpdated (p : Option Product)
  | productDeleted (id : String)
  | userAdded (u : User)
  | userUpdated (u : Option User)
  | userDeleted (id : String)
  | orderAdded (o : Order)
  | orderUpdated (o : Option Order)
  | orderDeleted (id : String)
deriving DecidableEq, Repr

/-- A constructed PubSub instance (what new PubSub() would produce). The
claims only need whether an instance exists at all, so it carries no data. -/
structure PubSub where
  mk ::
deriving DecidableEq, Repr

/-- The module-level pubsub binding of the resolvers file. The import and
the construction are commented out in the source (a TODO says to uncomment
them to enable subscriptions), so the name is not defined: none. -/
def pubsub : Option PubSub := none

/-- The call pubsub.publish(topic, event) as the mutation resolvers make it.
When the pubsub binding is undefined the call raises a ReferenceError
(message: pubsub is not defined), which the surrounding try/catch turns into
the mutation error; with a constructed instance the publish succeeds. -/
def publish (ps : Option PubSub) (_topic : String) (_ev : Event) :
    Except String Unit :=
  match ps with
  | none => Except.error "pubsub is not defined"
  | some _ => Except.ok ()

/-- Outcome of running one mutation resolver: the value returned or error
thrown to the GraphQL caller, the store contents afterwards, and the change
events whose publish succeeded, as (topic, event) pairs. -/
structure MutResult (α : Type) where
  result : Except String α
  store : Store
  events : List (String × Event)

/-- Update document passed to Product.findByIdAndUpdate by updateProduct:
the resolver forwards its four optional GraphQL arguments, and Mongoose
strips keys whose value is undefined, so an omitted argument means the field
is not touched (none here). -/
structure ProductUpdate where
  name : Option String
  price : Option Int
  category : Option String
  status : Option PStatus
deriving DecidableEq, Repr

/-- Update document for User.findByIdAndUpdate, same convention. -/
structure UserUpdate where
  username : Option String
  email : Option String
  role : Option Role
deriving DecidableEq, Repr

/-- Update document for Order.findByIdAndUpdate, same convention. -/
structure OrderUpdate where
  products : Option (List String)
  user : Option String
  total : Option Int
  status : Option OStatus
deriving DecidableEq, Repr

/-- Apply an update document to a stored product: fields present in the
update are set, fields absent are left as they were; the id is never part of
the update document. -/
def applyProductUpdate (p : Product) (u : ProductUpdate) : Product :=
  { p with
    name := u.name.getD p.name
    price := u.price.getD p.price
    category := match u.category with
      | some c => some c
      | none => p.category
    status := match u.status with
      | some st => some st
      | none => p.status }

/-- Apply an update document to a stored user. -/
def applyUserUpdate (w : User) (u : UserUpdate) : User :=
  { w with
    username := u.username.getD w.username
    email := u.email.getD w.email
    role := match u.role with
      | some r => some r
      | none => w.role }

/-- Apply an update document to a stored order. -/
def applyOrderUpdate (o : Order) (u : OrderUpdate) : Order :=
  { o with
    products := u.products.getD o.products
    user := u.user.getD o.user
    total := u.total.getD o.total
    status := match u.status with
      | some st => some st
      | none => o.status }

/-- Rewrite the first document whose id matches, leaving the rest of the
collection untouched (Mongo updates the single document findByIdAndUpdate
addressed). -/
def updateFirstBy (getId : α → String) (id : String) (f : α → α) :
    List α → List α
  | [] => []
  | x :: xs =>
      if getId x == id then f x :: xs
      else x :: updateFirstBy getId id f xs

/-- Remove the first document whose id matches (Mongo deletes the single
document findByIdAndDelete addressed); a miss removes nothing. -/
def eraseFirstBy (getId : α → String) (id : String) : List α → List α
  | [] => []
  | x :: xs =>
      if getId x == id then xs
      else x :: eraseFirstBy getId id xs

/-- Product.findByIdAndUpdate with the new-document option: returns the
updated document, or null when the id does not exist (no error is raised for
a missing id), together with the store afterwards. -/
def productFindByIdAndUpdate (s : Store) (id : String) (u : ProductUpdate) :
    Option Product × Store :=
  match s.products.find? (fun p => p.id == id) with
  | none => (none, s)
  | some p =>
      (some (applyProductUpdate p u),
       { s with
          products :=
            updateFirstBy Product.id id (fun q => applyProductUpdate q u)
              s.products })

/-- User.findByIdAndUpdate, same semantics. -/
def userFindByIdAndUpdate (s : Store) (id : String) (u : UserUpdate) :
    Option User × Store :=
  match s.users.find? (fun w => w.id == id) with
  | none => (none, s)
  | some w =>
      (some (applyUserUpdate w u),
       { s with
          users :=
            updateFirstBy User.id id (fun q => applyUserUpdate q u) s.users })

/-- Order.findByIdAndUpdate, same semantics. -/
def orderFindByIdAndUpdate (s : Store) (id : String) (u : OrderUpdate) :
    Option Order × Store :=
  match s.orders.find? (fun o => o.id == id) with
  | none => (none, s)
  | some o =>
      (some (applyOrderUpdate o u),
       { s with
          orders :=
            updateFirstBy Order.id id (fun q => applyOrderUpdate q u)
              s.orders })

/-- Product.findByIdAndDelete: removes the document if present; deleting a
missing id is a no-op, not an error. -/
def productFindByIdAndDelete (s : Store) (id : String) : Store :=
  { s with products := eraseFirstBy Product.id id s.products }

/-- User.findByIdAndDelete. -/
def userFindByIdAndDelete (s : Store) (id : String) : Store :=
  { s with users := eraseFirstBy User.id id s.users }

/-- Order.findByIdAndDelete. -/
def orderFindByIdAndDelete (s : Store) (id : String) : Store :=
  { s with orders := eraseFirstBy Order.id id s.orders }

/-- Product.create: the store assigns a fresh identity (passed in explicitly
here) and appends the new document. -/
def productCreate (s : Store) (freshId : String) (name : String) (price : Int)
    (category : Option String) (status : Option PStatus) : Product × Store :=
  let p : Product := ⟨freshId, name, price, category, status⟩
  (p, { s with products := s.products ++ [p] })

/-- User.create. -/
def userCreate (s : Store) (freshId : String) (username : String)
    (email : String) (role : Option Role) : User × Store :=
  let w : User := ⟨freshId, username, email, role⟩
  (w, { s with users := s.users ++ [w] })

/-- Order.create. -/
def orderCreate (s : Store) (freshId : String) (products : List String)
    (user : String) (total : Int) (status : Option OStatus) : Order × Store :=
  let o : Order := ⟨freshId, products, user, total, status⟩
  (o, { s with orders := s.orders ++ [o] })

namespace Mutation

/-- Resolver Mutation.addProduct over an explicit pubsub binding: the create
is awaited first (the write commits), then publish runs; a publish failure is
caught by the try/catch and rethrown as the mutation error, after the write. -/
def addProductWith (ps : Option PubSub) (s : Store) (freshId : String)
    (name : String) (price : Int) (category : Option String)
    (status : Option PStatus) : MutResult Product :=
  let (p, s2) := productCreate s freshId name price category status
  match publish ps "PRODUCT_ADDED" (Event.productAdded p) with
  | Except.error e =>
      ⟨Except.error ("Failed to add product: " ++ e), s2, []⟩
  | Except.ok _ =>
      ⟨Except.ok p, s2, [("PRODUCT_ADDED", Event.productAdded p)]⟩

/-- Resolver Mutation.addProduct as shipped, over the undefined module-level
pubsub binding. -/
def addProduct (s : Store) (freshId : String) (name : String) (price : Int)
    (category : Option String) (status : Option PStatus) : MutResult Product :=
  addProductWith pubsub s freshId name price category status

/-- Resolver Mutation.updateProduct over an explicit pubsub binding. -/
def updateProductWith (ps : Option PubSub) (s : Store) (id : String)
    (u : ProductUpdate) : MutResult (Option Product) :=
  let (res, s2) := productFindByIdAndUpdate s id u
  match publish ps "PRODUCT_UPDATED" (Event.productUpdated res) with
  | Except.error e =>
      ⟨Except.error ("Failed to update product: " ++ e), s2, []⟩
  | Except.ok _ =>
      ⟨Except.ok res, s2, [("PRODUCT_UPDATED", Event.productUpdated res)]⟩

/-- Resolver Mutation.updateProduct as shipped. -/
def updateProduct (s : Store) (id : String) (u : ProductUpdate) :
    MutResult (Option Product) :=
  updateProductWith pubsub s id u

/-- Resolver Mutation.deleteProduct over an explicit pubsub binding: the
delete is awaited, then publish runs, then the resolver returns the literal
true — it never consults whether a document was actually removed. -/
def deleteProductWith (ps : Option PubSub) (s : Store) (id : String) :
    MutResult Bool :=
  let s2 := productFindByIdAndDelete s id
  match publish ps "PRODUCT_DELETED" (Event.productDeleted id) with
  | Except.error e =>
      ⟨Except.error ("Failed to delete product: " ++ e), s2, []⟩
  | Except.ok _ =>
      ⟨Except.ok true, s2, [("PRODUCT_DELETED", Event.productDeleted id)]⟩

/-- Resolver Mutation.deleteProduct as shipped. -/
def deleteProduct (s : Store) (id : String) : MutResult Bool :=
  deleteProductWith pubsub s id

/-- Resolver Mutation.addUser over an explicit pubsub binding. -/
def addUserWith (ps : Option PubSub) (s : Store) (freshId : String)
    (username : String) (email : String) (role : Option Role) :
    MutResult User :=
  let (w, s2) := userCreate s freshId username email role
  match publish ps "USER_ADDED" (Event.userAdded w) with
  | Except.error e =>
      ⟨Except.error ("Failed to add user: " ++ e), s2, []⟩
  | Except.ok _ =>
      ⟨Except.ok w, s2, [("USER_ADDED", Event.userAdded w)]⟩

/-- Resolver Mutation.addUser as shipped. -/
def addUser (s : Store) (freshId : String) (username : String)
    (email : String) (role : Option Role) : MutResult User :=
  addUserWith pubsub s freshId username email role

/-- Resolver Mutation.updateUser over an explicit pubsub binding. -/
def updateUserWith (ps : Option PubSub) (s : Store) (id : String)
    (u : UserUpdate) : MutResult (Option User) :=
  let (res, s2) := userFindByIdAndUpdate s id u
  match publish ps "USER_UPDATED" (Event.userUpdated res) with
  | Except.error e =>
      ⟨Except.error ("Failed to update user: " ++ e), s2, []⟩
  | Except.ok _ =>
      ⟨Except.ok res, s2, [("USER_UPDATED", Event.userUpdated res)]⟩

/-- Resolver Mutation.updateUser as shipped. -/
def updateUser (s : Store) (id : String) (u : UserUpdate) :
    MutResult (Option User) :=
  updateUserWith pubsub s id u

/-- Resolver Mutation.deleteUser over an explicit pubsub binding. -/
def deleteUserWith (ps : Option PubSub) (s : Store) (id : String) :
    MutResult Bool :=
  let s2 := userFindByIdAndDelete s id
  match publish ps "USER_DELETED" (Event.userDeleted id) with
  | Except.error e =>
      ⟨Except.error ("Failed to delete user: " ++ e), s2, []⟩
  | Except.ok _ =>
      ⟨Except.ok true, s2, [("USER_DELETED", Event.userDeleted id)]⟩

/-- Resolver Mutation.deleteUser as shipped. -/
def deleteUser (s : Store) (id : String) : MutResult Bool :=
  deleteUserWith pubsub s id

/-- Resolver Mutation.addOrder over an explicit pubsub binding. -/
def addOrderWith (ps : Option PubSub) (s : Store) (freshId : String)
    (products : List String) (user : String) (total : Int)
    (status : Option OStatus) : MutResult Order :=
  let (o, s2) := orderCreate s freshId products user total status
  match publish ps "ORDER_ADDED" (Event.orderAdded o) with
  | Except.error e =>
      ⟨Except.error ("Failed to add order: " ++ e), s2, []⟩
  | Except.ok _ =>
      ⟨Except.ok o, s2, [("ORDER_ADDED", Event.orderAdded o)]⟩

/-- Resolver Mutation.addOrder as shipped. -/
def addOrder (s : Store) (freshId : String) (products : List String)
    (user : String) (total : Int) (status : Option OStatus) :
    MutResult Order :=
  addOrderWith pubsub s freshId products user total status

/-- Resolver Mutation.updateOrder over an explicit pubsub binding. -/
def updateOrderWith (ps : Option PubSub) (s : Store) (id : String)
    (u : OrderUpdate) : MutResult (Option Order) :=
  let (res, s2) := orderFindByIdAndUpdate s id u
  match publish ps "ORDER_UPDATED" (Event.orderUpdated res) with
  | Except.error e =>
      ⟨Except.error ("Failed to update order: " ++ e), s2, []⟩
  | Except.ok _ =>
      ⟨Except.ok res, s2, [("ORDER_UPDATED", Event.orderUpdated res)]⟩

/-- Resolver Mutation.updateOrder as shipped. -/
def updateOrder (s : Store) (id : String) (u : OrderUpdate) :
    MutResult (Option Order) :=
  updateOrderWith pubsub s id u

/-- Resolver Mutation.deleteOrder over an explicit pubsub binding. -/
def deleteOrderWith (ps : Option PubSub) (s : Store) (id : String) :
    MutResult Bool :=
  let s2 := orderFindByIdAndDelete s id
  match publish ps "ORDER_DELETED" (Event.orderDeleted id) with
  | Except.error e =>
      ⟨Except.error ("Failed to delete order: " ++ e), s2, []⟩
  | Except.ok _ =>
      ⟨Except.ok true, s2, [("ORDER_DELETED", Event.orderDeleted id)]⟩

/-- Resolver Mutation.deleteOrder as shipped. -/
def deleteOrder (s : Store) (id : String) : MutResult Bool :=
  deleteOrderWith pubsub s id

end Mutation

/-! ### C7 / C10: the `products` query filter -/

/-- C7: `products(onlyActive=true)` returns exactly the subset of stored
products whose status is ACTIVE — every returned product is ACTIVE, and every
ACTIVE stored product is returned. -/
theorem products_activeOnly_exact (s : Store) (p : Product) :
    p ∈ Query.products s (some true) ↔
      p ∈ s.products ∧ p.status = some PStatus.ACTIVE := by
  simp [Query.products, List.mem_filter]

/-- C10: with `onlyActive` absent or false, the `products` query returns the
whole collection unchanged — INACTIVE and status-less products included; the
ACTIVE filter only applies when `onlyActive` is true. -/
theorem products_default_unfiltered (s : Store) :
    Query.products s none = s.products ∧
    Query.products s (some false) = s.products := by
  constructor <;> rfl

/-! ### Helper lemmas about the one-document list operations -/

theorem eraseFirstBy_of_forall_ne (getId : α → String) (id : String)
    (l : List α) (h : ∀ x ∈ l, getId x ≠ id) :
    eraseFirstBy getId id l = l := by
  induction l with
  | nil => rfl
  | cons x xs ih =>
      have hx : (getId x == id) = false :=
        beq_eq_false_iff_ne.mpr (h x (List.mem_cons_self x xs))
      simp only [eraseFirstBy, hx, if_neg Bool.false_ne_true]
      rw [ih (fun y hy => h y (List.mem_cons_of_mem x hy))]

theorem eraseFirstBy_idem (getId : α → String) (id : String) (l : List α)
    (h : (l.map getId).Nodup) :
    eraseFirstBy getId id (eraseFirstBy getId id l)
      = eraseFirstBy getId id l := by
  induction l with
  | nil => rfl
  | cons x xs ih =>
      rw [List.map_cons, List.nodup_cons] at h
      by_cases hx : getId x = id
      · have hb : (getId x == id) = true := beq_iff_eq.mpr hx
        simp only [eraseFirstBy, hb, if_pos rfl]
        refine eraseFirstBy_of_forall_ne getId id xs (fun y hy hyid => ?_)
        exact h.1 (hx ▸ hyid ▸ List.mem_map_of_mem getId hy)
      · have hb : (getId x == id) = false := beq_eq_false_iff_ne.mpr hx
        simp only [eraseFirstBy, hb, if_neg Bool.false_ne_true]
        rw [ih h.2]

theorem find?_updateFirstBy (getId : α → String) (id : String) (f : α → α)
    (hf : ∀ x, getId (f x) = getId x) (l : List α) (p : α)
    (h : l.find? (fun x => getId x == id) = some p) :
    (updateFirstBy getId id f l).find? (fun x => getId x == id)
      = some (f p) := by
  induction l with
  | nil => simp at h
  | cons x xs ih =>
      by_cases hx : getId x = id
      · have hb : (getId x == id) = true := beq_iff_eq.mpr hx
        have hb2 : (getId (f x) == id) = true :=
          beq_iff_eq.mpr ((hf x).trans hx)
        rw [List.find?_cons_of_pos (p := fun y => getId y == id)
          (a := x) xs hb] at h
        cases h
        simp only [updateFirstBy, hb, if_pos rfl]
        exact List.find?_cons_of_pos (p := fun y => getId y == id)
          (a := f p) xs hb2
      · have hb : (getId x == id) = false := beq_eq_false_iff_ne.mpr hx
        have hnb : ¬ ((fun y => getId y == id) x = true) := by simp [hb]
        rw [List.find?_cons_of_neg (p := fun y => getId y == id)
          (a := x) xs hnb] at h
        simp only [updateFirstBy, hb, if_neg Bool.false_ne_true]
        rw [List.find?_cons_of_neg (p := fun y => getId y == id)
          (a := x) (updateFirstBy getId id f xs) hnb]
        exact ih h

/-! ### Concrete fixtures used by the closed theorems -/

/-- The keyboard product of the specification scenario. -/
def p1 : Product :=
  ⟨"p1", "KeyBoard", 99, some "Electronics", some PStatus.ACTIVE⟩

/-- A store holding exactly that one product. -/
def sP : Store := ⟨[p1], [], []⟩

/-- The empty store. -/
def emptyS : Store := ⟨[], [], []⟩

/-- An update document touching no field. -/
def noPU : ProductUpdate := ⟨none, none, none, none⟩

/-- An update document touching only the price. -/
def pricePU : ProductUpdate := ⟨none, some 150, none, none⟩

/-! ### C2: mutations, the store write, and the publish step -/

/-- C2 (code bug): on a successful store write, addProduct as shipped commits
the write, publishes nothing, and throws — the publish call hits the
undefined pubsub binding, and its ReferenceError fails the whole mutation
even though the write already happened. With a constructed pubsub instance
(the commented-out TODO lines) the same input returns the product and
publishes exactly one event, which is what the repository readme documents. -/
theorem addProduct_write_commits_publish_fails :
    (Mutation.addProduct emptyS "m1" "Mouse" 99 (some "Electronics")
        (some PStatus.ACTIVE)).result
      = Except.error "Failed to add product: pubsub is not defined" ∧
    (Mutation.addProduct emptyS "m1" "Mouse" 99 (some "Electronics")
        (some PStatus.ACTIVE)).store.products
      = [⟨"m1", "Mouse", 99, some "Electronics", some PStatus.ACTIVE⟩] ∧
    (Mutation.addProduct emptyS "m1" "Mouse" 99 (some "Electronics")
        (some PStatus.ACTIVE)).events = [] ∧
    (Mutation.addProductWith (some PubSub.mk) emptyS "m1" "Mouse" 99
        (some "Electronics") (some PStatus.ACTIVE)).result
      = Except.ok ⟨"m1", "Mouse", 99, some "Electronics", some PStatus.ACTIVE⟩ ∧
    (Mutation.addProductWith (some PubSub.mk) emptyS "m1" "Mouse" 99
        (some "Electronics") (some PStatus.ACTIVE)).events
      = [("PRODUCT_ADDED", Event.productAdded
            ⟨"m1", "Mouse", 99, some "Electronics", some PStatus.ACTIVE⟩)] :=
  ⟨rfl, rfl, rfl, rfl, rfl⟩

/-! ### C3: delete semantics -/

/-- C3 counterexample: deleting an existing product does not return true —
the shipped resolver throws the publish error; and even with publish enabled
a second delete of the same identity returns true again, not false, because
the resolver returns the literal true without checking existence. -/
theorem deleteProduct_first_call_not_true :
    (Mutation.deleteProduct sP "p1").result ≠ Except.ok true ∧
    (Mutation.deleteProduct sP "p1").result
      = Except.error "Failed to delete product: pubsub is not defined" ∧
    (Mutation.deleteProductWith (some PubSub.mk) sP "p1").result
      = Except.ok true ∧
    (Mutation.deleteProductWith (some PubSub.mk)
        (Mutation.deleteProductWith (some PubSub.mk) sP "p1").store
        "p1").result
      = Except.ok true :=
  ⟨fun h => Except.noConfusion h, rfl, rfl, rfl⟩

/-- C3 amended: each delete removes the document from the store if present
and the store-level delete is idempotent (a second delete of the same
identity is a no-op when ids are unique), but the resolver as shipped always
throws the publish error instead of returning a boolean, and with publish
enabled it returns true unconditionally — so deleting twice yields
(true, true), never (true, false), and a missing identity still yields true. -/
theorem delete_idempotent_store_but_constant_true (s : Store) (id : String) :
    (Mutation.deleteProduct s id).result
      = Except.error "Failed to delete product: pubsub is not defined" ∧
    (Mutation.deleteProduct s id).store = productFindByIdAndDelete s id ∧
    (Mutation.deleteUser s id).result
      = Except.error "Failed to delete user: pubsub is not defined" ∧
    (Mutation.deleteUser s id).store = userFindByIdAndDelete s id ∧
    (Mutation.deleteOrder s id).result
      = Except.error "Failed to delete order: pubsub is not defined" ∧
    (Mutation.deleteOrder s id).store = orderFindByIdAndDelete s id ∧
    ((s.products.map Product.id).Nodup →
      productFindByIdAndDelete (productFindByIdAndDelete s id) id
        = productFindByIdAndDelete s id) ∧
    (∀ inst : PubSub,
      (Mutation.deleteProductWith (some inst) s id).result = Except.ok true ∧
      (Mutation.deleteUserWith (some inst) s id).result = Except.ok true ∧
      (Mutation.deleteOrderWith (some inst) s id).result = Except.ok true) := by
  refine ⟨rfl, rfl, rfl, rfl, rfl, rfl, fun h => ?_, fun inst => ⟨rfl, rfl, rfl⟩⟩
  show ({ productFindByIdAndDelete s id with
            products := eraseFirstBy Product.id id
              (productFindByIdAndDelete s id).products } : Store)
      = productFindByIdAndDelete s id
  rw [Store.mk.injEq]
  refine ⟨?_, rfl, rfl⟩
  exact eraseFirstBy_idem Product.id id s.products h

/-- C3 witness: the amended statement applied to the one-product store. -/
theorem delete_idempotent_store_witness :
    productFindByIdAndDelete (productFindByIdAndDelete sP "p1") "p1"
      = productFindByIdAndDelete sP "p1" :=
  (delete_idempotent_store_but_constant_true sP "p1").2.2.2.2.2.2.1
    (by decide)

/-! ### C4: update on a missing identity -/

/-- C4 counterexample: updating a nonexistent product id does not surface a
NotFound error. The store lookup yields an absent value and leaves the store
unchanged; the shipped resolver then throws the very same publish error it
throws for an existing id (so the caller cannot tell missing from present),
and with publish enabled the mutation succeeds returning null. -/
theorem updateProduct_missing_id_not_notfound :
    productFindByIdAndUpdate sP "zzz" noPU = (none, sP) ∧
    (Mutation.updateProduct sP "zzz" noPU).result
      = Except.error "Failed to update product: pubsub is not defined" ∧
    (Mutation.updateProduct sP "p1" noPU).result
      = Except.error "Failed to update product: pubsub is not defined" ∧
    (Mutation.updateProductWith (some PubSub.mk) sP "zzz" noPU).result
      = Except.ok none :=
  ⟨rfl, rfl, rfl, rfl⟩

/-- C4 amended: for an identity absent from the store, each store-level update
operation returns an absent value (null) and changes nothing; no NotFound
error exists — the shipped resolver fails with the pubsub ReferenceError
(identical to the existing-id path), and with publish enabled the mutation
succeeds returning null. -/
theorem update_missing_id_returns_absent (s : Store) (id : String) :
    (∀ u : ProductUpdate, (∀ p ∈ s.products, p.id ≠ id) →
      productFindByIdAndUpdate s id u = (none, s) ∧
      (Mutation.updateProduct s id u).result
        = Except.error "Failed to update product: pubsub is not defined" ∧
      (Mutation.updateProduct s id u).store = s ∧
      ∀ inst : PubSub,
        (Mutation.updateProductWith (some inst) s id u).result
          = Except.ok none) ∧
    (∀ u : UserUpdate, (∀ w ∈ s.users, w.id ≠ id) →
      userFindByIdAndUpdate s id u = (none, s) ∧
      (Mutation.updateUser s id u).result
        = Except.error "Failed to update user: pubsub is not defined" ∧
      (Mutation.updateUser s id u).store = s ∧
      ∀ inst : PubSub,
        (Mutation.updateUserWith (some inst) s id u).result
          = Except.ok none) ∧
    (∀ u : OrderUpdate, (∀ o ∈ s.orders, o.id ≠ id) →
      orderFindByIdAndUpdate s id u = (none, s) ∧
      (Mutation.updateOrder s id u).result
        = Except.error "Failed to update order: pubsub is not defined" ∧
      (Mutation.updateOrder s id u).store = s ∧
      ∀ inst : PubSub,
        (Mutation.updateOrderWith (some inst) s id u).result
          = Except.ok none) := by
  refine ⟨fun u h => ?_, fun u h => ?_, fun u h => ?_⟩
  · have hfind : s.products.find? (fun p => p.id == id) = none :=
      List.find?_eq_none.mpr (fun x hx => by simp [h x hx])
    refine ⟨?_, ?_, ?_, fun inst => ?_⟩
    · simp only [productFindByIdAndUpdate, hfind]
    · simp [Mutation.updateProduct, Mutation.updateProductWith,
        publish, pubsub, productFindByIdAndUpdate, hfind]
    · simp [Mutation.updateProduct, Mutation.updateProductWith,
        publish, pubsub, productFindByIdAndUpdate, hfind]
    · simp [Mutation.updateProductWith, publish,
        productFindByIdAndUpdate, hfind]
  · have hfind : s.users.find? (fun w => w.id == id) = none :=
      List.find?_eq_none.mpr (fun x hx => by simp [h x hx])
    refine ⟨?_, ?_, ?_, fun inst => ?_⟩
    · simp only [userFindByIdAndUpdate, hfind]
    · simp [Mutation.updateUser, Mutation.updateUserWith,
        publish, pubsub, userFindByIdAndUpdate, hfind]
    · simp [Mutation.updateUser, Mutation.updateUserWith,
        publish, pubsub, userFindByIdAndUpdate, hfind]
    · simp [Mutation.updateUserWith, publish,
        userFindByIdAndUpdate, hfind]
  · have hfind : s.orders.find? (fun o => o.id == id) = none :=
      List.find?_eq_none.mpr (fun x hx => by simp [h x hx])
    refine ⟨?_, ?_, ?_, fun inst => ?_⟩
    · simp only [orderFindByIdAndUpdate, hfind]
    · simp [Mutation.updateOrder, Mutation.updateOrderWith,
        publish, pubsub, orderFindByIdAndUpdate, hfind]
    · simp [Mutation.updateOrder, Mutation.updateOrderWith,
        publish, pubsub, orderFindByIdAndUpdate, hfind]
    · simp [Mutation.updateOrderWith, publish,
        orderFindByIdAndUpdate, hfind]

/-- C4 witness: the amended statement applied to the one-product store and a
missing id. -/
theorem update_missing_id_returns_absent_witness :
    (Mutation.updateProductWith (some PubSub.mk) sP "zzz" noPU).result
      = Except.ok none :=
  ((update_missing_id_returns_absent sP "zzz").1 noPU
    (by decide)).2.2.2 PubSub.mk

/-! ### C5: partial update leaves omitted fields unchanged -/

/-- C5: updating an existing entity applies exactly the fields present in
the update document — after the mutation the stored document under that id
is the old document with only the supplied fields replaced, and every
omitted field keeps its pre-update value (never reset to empty or null),
for products, users and orders alike. -/
theorem update_preserves_omitted_fields (s : Store) (id : String) :
    (∀ (u : ProductUpdate) (p : Product), Query.product s id = some p →
      Query.product (Mutation.updateProduct s id u).store id
          = some (applyProductUpdate p u) ∧
      (u.name = none → (applyProductUpdate p u).name = p.name) ∧
      (u.price = none → (applyProductUpdate p u).price = p.price) ∧
      (u.category = none → (applyProductUpdate p u).category = p.category) ∧
      (u.status = none → (applyProductUpdate p u).status = p.status)) ∧
    (∀ (u : UserUpdate) (w : User), Query.user s id = some w →
      Query.user (Mutation.updateUser s id u).store id
          = some (applyUserUpdate w u) ∧
      (u.username = none → (applyUserUpdate w u).username = w.username) ∧
      (u.email = none → (applyUserUpdate w u).email = w.email) ∧
      (u.role = none → (applyUserUpdate w u).role = w.role)) ∧
    (∀ (u : OrderUpdate) (o : Order), Query.order s id = some o →
      Query.order (Mutation.updateOrder s id u).store id
          = some (applyOrderUpdate o u) ∧
      (u.products = none → (applyOrderUpdate o u).products = o.products) ∧
      (u.user = none → (applyOrderUpdate o u).user = o.user) ∧
      (u.total = none → (applyOrderUpdate o u).total = o.total) ∧
      (u.status = none → (applyOrderUpdate o u).status = o.status)) := by
  refine ⟨fun u p h => ?_, fun u w h => ?_, fun u o h => ?_⟩
  · rw [Query.product] at h
    refine ⟨?_, fun hn => by simp [applyProductUpdate, hn],
      fun hn => by simp [applyProductUpdate, hn],
      fun hn => by simp [applyProductUpdate, hn],
      fun hn => by simp [applyProductUpdate, hn]⟩
    simp only [Query.product, Mutation.updateProduct,
      Mutation.updateProductWith, publish, pubsub,
      productFindByIdAndUpdate, h]
    exact find?_updateFirstBy Product.id id
      (fun q => applyProductUpdate q u) (fun _ => rfl) s.products p h
  · rw [Query.user] at h
    refine ⟨?_, fun hn => by simp [applyUserUpdate, hn],
      fun hn => by simp [applyUserUpdate, hn],
      fun hn => by simp [applyUserUpdate, hn]⟩
    simp only [Query.user, Mutation.updateUser,
      Mutation.updateUserWith, publish, pubsub,
      userFindByIdAndUpdate, h]
    exact find?_updateFirstBy User.id id
      (fun q => applyUserUpdate q u) (fun _ => rfl) s.users w h
  · rw [Query.order] at h
    refine ⟨?_, fun hn => by simp [applyOrderUpdate, hn],
      fun hn => by simp [applyOrderUpdate, hn],
      fun hn => by simp [applyOrderUpdate, hn],
      fun hn => by simp [applyOrderUpdate, hn]⟩
    simp only [Query.order, Mutation.updateOrder,
      Mutation.updateOrderWith, publish, pubsub,
      orderFindByIdAndUpdate, h]
    exact find?_updateFirstBy Order.id id
      (fun q => applyOrderUpdate q u) (fun _ => rfl) s.orders o h

/-- C5 witness: updating only the price of the keyboard leaves its name,
category and status untouched in the store. -/
theorem update_preserves_omitted_fields_witness :
    Query.product (Mutation.updateProduct sP "p1" pricePU).store "p1"
      = some (applyProductUpdate p1 pricePU) ∧
    (applyProductUpdate p1 pricePU).name = p1.name ∧
    (applyProductUpdate p1 pricePU).category = p1.category :=
  ⟨((update_preserves_omitted_fields sP "p1").1 pricePU p1 rfl).1,
   ((update_preserves_omitted_fields sP "p1").1 pricePU p1 rfl).2.1 rfl,
   ((update_preserves_omitted_fields sP "p1").1 pricePU p1 rfl).2.2.2.1 rfl⟩

/-! ### Relationship-field resolution over a result set (C1, C8, C9) -/

/-- The two referenced entity types an Order resolves. -/
inductive EntityType where
  | userT
  | productT
deriving DecidableEq, Repr

/-- One store round trip issued while resolving relationship fields: the
referenced type and the identities the lookup asks for. -/
structure Lookup where
  ty : EntityType
  ids : List String
deriving DecidableEq, Repr

/-- An order with its two relationship fields resolved. -/
structure ResolvedOrder where
  order : Order
  user : Option User
  products : List Product
deriving DecidableEq, Repr

/-- Per-record resolution as the GraphQL executor drives the shipped field
resolvers: for each parent order it invokes Order.products (one in-query
round trip on the product collection) and Order.user (one findOne round trip
on the user collection), so each parent contributes one lookup of each type
to the trace. -/
def resolveResultSet (s : Store) : List Order → List ResolvedOrder × List Lookup
  | [] => ([], [])
  | o :: os =>
      let (rs, tr) := resolveResultSet s os
      (⟨o, OrderField.user s o, OrderField.products s o⟩ :: rs,
       Lookup.mk EntityType.productT o.products
         :: Lookup.mk EntityType.userT [o.user] :: tr)

/-- Per-record resolution output in the shape section 4.1 of the spec
prescribes for the naive baseline: the user slot, and one slot per product
reference — positional, with multiplicity — where a reference whose target
is missing carries the explicit unresolved marker none instead of being
dropped. -/
structure NaiveResolvedOrder where
  order : Order
  user : Option User
  products : List (Option Product)
deriving DecidableEq, Repr

/-- Modelled from the spec (the repository has no such code): naive
per-record resolution as section 4.1 describes it — one lookup per Order for
its user, one lookup per Order for each of its product references, with the
results mapped back onto the parent positionally and a missing referenced
entity resolving to the explicit unresolved marker. -/
def resolveOrderNaivePerRef (s : Store) (o : Order) : NaiveResolvedOrder :=
  ⟨o, s.users.find? (fun u => u.id == o.user),
   o.products.map (fun pid => s.products.find? (fun p => p.id == pid))⟩

theorem find?_eq_self_of_nodup (getId : α → String) (l : List α) (p : α)
    (hnd : (l.map getId).Nodup) (hp : p ∈ l) :
    l.find? (fun x => getId x == getId p) = some p := by
  induction l with
  | nil => simp at hp
  | cons x xs ih =>
      rw [List.map_cons, List.nodup_cons] at hnd
      rcases List.mem_cons.mp hp with h | h
      · subst h
        exact List.find?_cons_of_pos (p := fun y => getId y == getId p)
          (a := p) xs (beq_iff_eq.mpr rfl)
      · have hne : getId x ≠ getId p := fun he =>
          hnd.1 (he ▸ List.mem_map_of_mem getId h)
        rw [List.find?_cons_of_neg (p := fun y => getId y == getId p)
          (a := x) xs (by simp [hne])]
        exact ih hnd.2 h

/-! ### Fixtures for the resolution theorems -/

/-- The customer of the specification scenario. -/
def uA : User := ⟨"u1", "user_1", "user_1@ymail.com", some Role.CUSTOMER⟩

/-- A second user. -/
def uB : User := ⟨"u2", "user_2", "user_2@ymail.com", some Role.ADMIN⟩

/-- An order of the first user. -/
def oA : Order := ⟨"o1", ["p1"], "u1", 200, some OStatus.COMPLETED⟩

/-- A second order of the first user. -/
def oB : Order := ⟨"o2", ["p1"], "u1", 99, some OStatus.PENDING⟩

/-- An order of the second user. -/
def oC : Order := ⟨"o3", [], "u2", 50, some OStatus.PENDING⟩

/-- A store with one product, one user and two orders. -/
def sB : Store := ⟨[p1], [uA], [oA, oB]⟩

/-- A store with orders owned by two different users. -/
def s6 : Store := ⟨[], [uA, uB], [oA, oC]⟩

/-- Two distinct products stored in the order pA then pB. -/
def pA : Product := ⟨"pA", "A", 1, none, none⟩

/-- Second product of the pair. -/
def pB : Product := ⟨"pB", "B", 2, none, none⟩

/-- Store holding pA before pB. -/
def s9 : Store := ⟨[pA, pB], [], []⟩

/-- An order referencing the two products in reversed order. -/
def oRev : Order := ⟨"or1", ["pB", "pA"], "u1", 3, none⟩

/-- An order referencing the same product twice. -/
def oDup : Order := ⟨"od1", ["pA", "pA"], "u1", 2, none⟩

/-- An order referencing one stored product and one missing product, owned
by a user id that no stored user carries. -/
def oDangP : Order := ⟨"o10", ["p1", "ghostP"], "ghost", 10,
  some OStatus.PENDING⟩

/-- A store holding that order, the one stored product, and no users. -/
def s8b : Store := ⟨[p1], [], [oDangP]⟩

/-! ### C1: per-type batching of relationship lookups -/

/-- C1 counterexample: on a result set of two orders the shipped field
resolvers issue one user lookup per order — two lookups for the user type
across the result set, not at most one; and the merged output is not
identical to what naive per-record resolution would produce either: for an
order referencing pB then pA, the naive per-reference resolution of section
4.1 yields the references in their own order while the shipped in-query
yields store order, so the outputs differ even after dropping the naive
absent markers. -/
theorem resolution_lookups_and_output_counterexample :
    ((resolveResultSet sB [oA, oB]).2.filter
        (fun l => l.ty == EntityType.userT)).length = 2 ∧
    ¬ ((resolveResultSet sB [oA, oB]).2.filter
        (fun l => l.ty == EntityType.userT)).length ≤ 1 ∧
    (resolveOrderNaivePerRef s9 oRev).products = [some pB, some pA] ∧
    OrderField.products s9 oRev = [pA, pB] ∧
    OrderField.products s9 oRev
      ≠ ((resolveOrderNaivePerRef s9 oRev).products).filterMap id := by
  refine ⟨rfl, by decide, by decide, by decide, by decide⟩

/-- C1 amended: resolution of relationship fields is per record — the trace
holds exactly one lookup of each referenced type per parent order, so the
lookup count grows linearly with the result set instead of being at most one
per type — and the merged output agrees with naive per-record resolution
only partially: the user field equals the naive user lookup, and, when
stored product ids are unique, a product appears in the shipped products
field iff it appears as a resolved entry of the naive per-reference output;
the shipped field itself is in store order with duplicates dropped, not
positionally aligned (see C9). -/
theorem resolution_per_record_lookups (s : Store) (os : List Order)
    (o : Order) :
    ((resolveResultSet s os).2.filter
        (fun l => l.ty == EntityType.userT)).length = os.length ∧
    ((resolveResultSet s os).2.filter
        (fun l => l.ty == EntityType.productT)).length = os.length ∧
    OrderField.user s o = (resolveOrderNaivePerRef s o).user ∧
    ((s.products.map Product.id).Nodup →
      ∀ p : Product, p ∈ OrderField.products s o ↔
        some p ∈ (resolveOrderNaivePerRef s o).products) := by
  refine ⟨?_, ?_, rfl, fun hnd p => ?_⟩
  · induction os with
    | nil => rfl
    | cons o2 os ih => simp [resolveResultSet, ih]
  · induction os with
    | nil => rfl
    | cons o2 os ih => simp [resolveResultSet, ih]
  · constructor
    · intro hp
      have hmem := (List.mem_filter.mp hp).1
      have hid : p.id ∈ o.products := by
        have := (List.mem_filter.mp hp).2
        simpa using this
      refine List.mem_map.mpr ⟨p.id, hid, ?_⟩
      exact find?_eq_self_of_nodup Product.id s.products p hnd hmem
    · intro hp
      rcases List.mem_map.mp hp with ⟨pid, hpid, hfind⟩
      have hmem : p ∈ s.products := List.mem_of_find?_eq_some hfind
      have hpeq : p.id = pid := by
        have := List.find?_some hfind
        simpa using this
      refine List.mem_filter.mpr ⟨hmem, ?_⟩
      have hid : p.id ∈ o.products := hpeq.symm ▸ hpid
      simpa using hid

/-- C1 amended witness: on the two-product store with unique ids, pA appears
in the shipped output for the reversed-reference order iff it is a resolved
entry of the naive per-reference output. -/
theorem resolution_per_record_lookups_witness :
    pA ∈ OrderField.products s9 oRev ↔
      some pA ∈ (resolveOrderNaivePerRef s9 oRev).products :=
  (resolution_per_record_lookups s9 [oRev] oRev).2.2.2 (by decide) pA

/-! ### C6: the userId argument of the orders query -/

/-- C6 (code bug): the orders resolver ignores the userId argument the
GraphQL schema declares — on a store whose two orders belong to the users u1
and u2, querying orders with userId u1 returns both orders, not the
store-level filter the schema and the repository docs describe. -/
theorem orders_userId_ignored :
    Query.orders s6 (some "u1") = [oA, oC] ∧
    s6.orders.filter (fun o => o.user == "u1") = [oA] ∧
    Query.orders s6 (some "u1")
      ≠ s6.orders.filter (fun o => o.user == "u1") := by
  refine ⟨rfl, by decide, by decide⟩

/-! ### C8: dangling references never fail the read -/

/-- C8 counterexample: an order referencing one stored and one missing
product still reads back, but the missing reference does not resolve to any
explicit absent or unresolved value — the resolved products list silently
drops it, returning one entry for two references, and its element type
carries no absence marker at all. -/
theorem getOrder_dangling_product_silently_omitted :
    Query.order s8b "o10" = some oDangP ∧
    oDangP.products = ["p1", "ghostP"] ∧
    OrderField.products s8b oDangP = [p1] ∧
    (OrderField.products s8b oDangP).length ≠ oDangP.products.length := by
  refine ⟨rfl, rfl, by decide, by decide⟩

/-- C8 amended: reading an order with dangling references never fails — the
order query still returns the order; a dangling user reference resolves to
the explicit absent value null; a dangling product reference, however, is
silently omitted from the resolved products list rather than resolving to an
absent value: only stored products appear, a referenced id with no stored
product never appears, and every stored product whose id is referenced still
resolves. -/
theorem getOrder_tolerates_dangling_refs (s : Store) (oid : String)
    (o : Order) (hfound : Query.order s oid = some o) :
    Query.order s oid = some o ∧
    ((∀ u ∈ s.users, u.id ≠ o.user) → OrderField.user s o = none) ∧
    (∀ p ∈ OrderField.products s o, p ∈ s.products) ∧
    (∀ pid ∈ o.products, (∀ q ∈ s.products, q.id ≠ pid) →
      pid ∉ (OrderField.products s o).map Product.id) ∧
    (∀ p ∈ s.products, p.id ∈ o.products → p ∈ OrderField.products s o) := by
  refine ⟨hfound, fun hd => ?_, fun p hp => ?_,
    fun pid _ hq hmem => ?_, fun p hp hid => ?_⟩
  · rw [OrderField.user]
    exact List.find?_eq_none.mpr (fun u hu => by simp [hd u hu])
  · exact (List.mem_filter.mp hp).1
  · rcases List.mem_map.mp hmem with ⟨q, hqmem, hqid⟩
    exact hq q (List.mem_filter.mp hqmem).1 hqid
  · refine List.mem_filter.mpr ⟨hp, ?_⟩
    simpa using hid

/-- C8 amended witness: on the store with one product and no users, the
order with a dangling user and a dangling product reference still reads
back; its user resolves to none, the missing product id appears nowhere in
the resolved list, and the stored product still resolves. -/
theorem getOrder_tolerates_dangling_refs_witness :
    Query.order s8b "o10" = some oDangP ∧
    OrderField.user s8b oDangP = none ∧
    "ghostP" ∉ (OrderField.products s8b oDangP).map Product.id ∧
    p1 ∈ OrderField.products s8b oDangP := by
  have h := getOrder_tolerates_dangling_refs s8b "o10" oDangP rfl
  exact ⟨h.1, h.2.1 (by decide),
    h.2.2.2.1 "ghostP" (by decide) (by decide),
    h.2.2.2.2 p1 (by decide) (by decide)⟩

/-! ### C9: ordering of the resolved products field -/

/-- C9 counterexample: the resolved products field is not positionally
aligned with the reference list of the order — an order referencing pB then pA
resolves to the store order pA then pB, and a reference repeated twice
resolves to a single occurrence. -/
theorem orderProducts_not_positional :
    OrderField.products s9 oRev = [pA, pB] ∧
    oRev.products = ["pB", "pA"] ∧
    (OrderField.products s9 oRev).map Product.id ≠ oRev.products ∧
    (OrderField.products s9 oDup).length = 1 ∧
    oDup.products.length = 2 := by
  refine ⟨by decide, rfl, by decide, by decide, rfl⟩

/-- C9 amended: the resolved products field contains exactly the stored
products whose id appears in the reference list of the order, in store (natural
collection) order — it is a sublist of the collection — with one occurrence
per stored document regardless of the order or multiplicity of the
references. -/
theorem orderProducts_store_order_subset (s : Store) (o : Order) :
    (OrderField.products s o).Sublist s.products ∧
    (∀ p : Product, p ∈ OrderField.products s o ↔
      p ∈ s.products ∧ p.id ∈ o.products) ∧
    ((s.products.map Product.id).Nodup →
      ((OrderField.products s o).map Product.id).Nodup) := by
  refine ⟨List.filter_sublist s.products, fun p => ?_, fun h => ?_⟩
  · simp [OrderField.products]
  · exact List.Nodup.sublist
      (List.Sublist.map Product.id (List.filter_sublist s.products)) h

/-- C9 amended witness: on the two-product store the resolved ids are
duplicate-free. -/
theorem orderProducts_store_order_subset_witness :
    ((OrderField.products s9 oRev).map Product.id).Nodup :=
  (orderProducts_store_order_subset s9 oRev).2.2 (by decide)

end GQL
